import Mathlib

/-!
Shallow embedding of mozilla::MultiplexerSink
(src/dom/media/mediasink/MultiplexerSink.h and its implementation file).

MultiplexerSink is a composite MediaSink owning two delegates:
mVideoSink (the primary presentation sink) and mDecodedStream (the
secondary capture sink). Every public method either forwards to the
primary only, forwards to both (primary first), or — for Start — forwards
to both and merges the two nsresults.

The embedding models an owned MediaSink by the values its virtual methods
return (a structure of response functions), and each MultiplexerSink
method as a literal transcription of the C++ body that yields both its
return value and the ordered list of delegate calls it issues, each call
tagged with the sink it was issued on and carrying its arguments.
Argument types the composite merely forwards are modelled by concrete
stand-ins: an IEEE-754 double by its 64-bit pattern (a Nat), nsAString by
String, media::TimeUnit by Int, and pointer/handle arguments (MediaInfo,
VideoInfo, TimeStamp*, VideoFrameContainer*, debug-info out-param) by Nat
identifiers, with nullable pointers as Option Nat.
-/

namespace Mozilla

/-- Track discriminator from the MediaSink interface: audio or video. -/
inductive TrackType
| AudioTrack
| VideoTrack
deriving DecidableEq, Repr

/-- XPCOM status code nsresult, a 32-bit value. -/
abbrev nsresult := Nat

/-- NS_OK, the success code. -/
def NS_OK : nsresult := 0

/-- NS_ERROR_FAILURE, the generic failure code (0x80004005). -/
def NS_ERROR_FAILURE : nsresult := 0x80004005

/-- An IEEE-754 double, represented by its 64-bit pattern; the multiplexer
only copies doubles, never computes with them. -/
abbrev CDouble := Nat

/-- media::TimeUnit stand-in; the multiplexer only forwards these values. -/
abbrev TimeUnit := Int

/-- Opaque handle for a MediaInfo value. -/
abbrev MediaInfoVal := Nat

/-- Opaque handle for a VideoInfo value. -/
abbrev VideoInfoVal := Nat

/-- Address of a caller-provided TimeStamp out-parameter. -/
abbrev TimeStampAddr := Nat

/-- Value a sink stores through the TimeStamp out-parameter. -/
abbrev TimeStampVal := Nat

/-- Nullable VideoFrameContainer pointer. -/
abbrev VideoFrameContainerRef := Option Nat

/-- Reference to the caller's MediaSinkDebugInfo out-parameter. -/
abbrev DebugInfoRef := Nat

/-- Opaque handle for a RefPtr of EndedPromise. -/
abbrev EndedPromiseRef := Nat

/-- Nullable pointer to an AudioDeviceInfo. -/
abbrev AudioDeviceRef := Option Nat

/-- One virtual-method invocation on an owned MediaSink, with the argument
values passed to it. -/
inductive SinkCall
| onEnded (aType : TrackType)
| getEndTime (aType : TrackType)
| getPosition (aTimeStamp : Option TimeStampAddr)
| hasUnplayedFrames (aType : TrackType)
| unplayedDuration (aType : TrackType)
| setVolume (aVolume : CDouble)
| setStreamName (aStreamName : String)
| setPlaybackRate (aPlaybackRate : CDouble)
| setPreservesPitch (aPreservesPitch : Bool)
| setPlaying (aPlaying : Bool)
| playbackRate
| redraw (aInfo : VideoInfoVal)
| start (aStartTime : TimeUnit) (aInfo : MediaInfoVal)
| stop
| isStarted
| isPlaying
| audioDevice
| shutdown
| setSecondaryVideoContainer (aSecondary : VideoFrameContainerRef)
| getDebugInfo (aInfo : DebugInfoRef)
deriving DecidableEq, Repr

/-- Which owned sink a delegate call is issued on: mVideoSink is the
primary presentation sink, mDecodedStream the secondary capture sink. -/
inductive SinkTag
| videoSink
| decodedStream
deriving DecidableEq, Repr

/-- A delegate-call event: which sink was called, and with what. -/
abbrev Ev := SinkTag × SinkCall

/-- The ordered sequence of delegate calls one composite operation issues. -/
abbrev Trace := List Ev

/-- Observable behaviour of an owned MediaSink: the value each virtual
method returns when invoked. GetPosition additionally yields the value the
sink writes through a non-null TimeStamp out-parameter, if any. -/
structure MediaSink where
  onEnded : TrackType → EndedPromiseRef
  getEndTime : TrackType → TimeUnit
  getPosition : Option TimeStampAddr → TimeUnit × Option TimeStampVal
  hasUnplayedFrames : TrackType → Bool
  unplayedDuration : TrackType → TimeUnit
  playbackRate : CDouble
  start : TimeUnit → MediaInfoVal → nsresult
  isStarted : Bool
  isPlaying : Bool
  audioDevice : AudioDeviceRef

/-- MultiplexerSink's only fields: the two owned sinks, both declared
const RefPtr and set once by the constructor. -/
structure MultiplexerSink where
  mVideoSink : MediaSink
  mDecodedStream : MediaSink

/-- MultiplexerSink::OnEnded: return mVideoSink->OnEnded(aType). -/
def MultiplexerSink.OnEnded (self : MultiplexerSink) (aType : TrackType) :
    EndedPromiseRef × Trace :=
  (self.mVideoSink.onEnded aType, [(.videoSink, .onEnded aType)])

/-- MultiplexerSink::GetEndTime: return mVideoSink->GetEndTime(aType). -/
def MultiplexerSink.GetEndTime (self : MultiplexerSink) (aType : TrackType) :
    TimeUnit × Trace :=
  (self.mVideoSink.getEndTime aType, [(.videoSink, .getEndTime aType)])

/-- MultiplexerSink::GetPosition: return mVideoSink->GetPosition(aTimeStamp);
the out-parameter pointer is handed to mVideoSink, whose write through it
(if any) is the second component of the result. -/
def MultiplexerSink.GetPosition (self : MultiplexerSink)
    (aTimeStamp : Option TimeStampAddr) :
    (TimeUnit × Option TimeStampVal) × Trace :=
  (self.mVideoSink.getPosition aTimeStamp, [(.videoSink, .getPosition aTimeStamp)])

/-- The declaration of GetPosition defaults aTimeStamp to nullptr; calling
the composite with the argument omitted passes the null pointer. -/
def MultiplexerSink.GetPositionNoArg (self : MultiplexerSink) :
    (TimeUnit × Option TimeStampVal) × Trace :=
  self.GetPosition none

/-- MultiplexerSink::HasUnplayedFrames: return
mVideoSink->HasUnplayedFrames(aType). -/
def MultiplexerSink.HasUnplayedFrames (self : MultiplexerSink)
    (aType : TrackType) : Bool × Trace :=
  (self.mVideoSink.hasUnplayedFrames aType, [(.videoSink, .hasUnplayedFrames aType)])

/-- MultiplexerSink::UnplayedDuration: return
mVideoSink->UnplayedDuration(aType). -/
def MultiplexerSink.UnplayedDuration (self : MultiplexerSink)
    (aType : TrackType) : TimeUnit × Trace :=
  (self.mVideoSink.unplayedDuration aType, [(.videoSink, .unplayedDuration aType)])

/-- MultiplexerSink::SetVolume: mVideoSink->SetVolume(aVolume) only; the
comment in the source explains mDecodedStream is deliberately skipped. -/
def MultiplexerSink.SetVolume (_self : MultiplexerSink) (aVolume : CDouble) :
    Trace :=
  [(.videoSink, .setVolume aVolume)]

/-- MultiplexerSink::SetStreamName: mVideoSink->SetStreamName(aStreamName);
mDecodedStream->SetStreamName(aStreamName). -/
def MultiplexerSink.SetStreamName (_self : MultiplexerSink)
    (aStreamName : String) : Trace :=
  [(.videoSink, .setStreamName aStreamName),
   (.decodedStream, .setStreamName aStreamName)]

/-- MultiplexerSink::SetPlaybackRate: both sinks, video sink first. -/
def MultiplexerSink.SetPlaybackRate (_self : MultiplexerSink)
    (aPlaybackRate : CDouble) : Trace :=
  [(.videoSink, .setPlaybackRate aPlaybackRate),
   (.decodedStream, .setPlaybackRate aPlaybackRate)]

/-- MultiplexerSink::SetPreservesPitch: mVideoSink only; the source comment
explains mDecodedStream is deliberately skipped. -/
def MultiplexerSink.SetPreservesPitch (_self : MultiplexerSink)
    (aPreservesPitch : Bool) : Trace :=
  [(.videoSink, .setPreservesPitch aPreservesPitch)]

/-- MultiplexerSink::SetPlaying: both sinks, video sink first. -/
def MultiplexerSink.SetPlaying (_self : MultiplexerSink) (aPlaying : Bool) :
    Trace :=
  [(.videoSink, .setPlaying aPlaying), (.decodedStream, .setPlaying aPlaying)]

/-- MultiplexerSink::PlaybackRate: return mVideoSink->PlaybackRate(). -/
def MultiplexerSink.PlaybackRate (self : MultiplexerSink) : CDouble × Trace :=
  (self.mVideoSink.playbackRate, [(.videoSink, .playbackRate)])

/-- MultiplexerSink::Redraw: both sinks, video sink first. -/
def MultiplexerSink.Redraw (_self : MultiplexerSink) (aInfo : VideoInfoVal) :
    Trace :=
  [(.videoSink, .redraw aInfo), (.decodedStream, .redraw aInfo)]

/-- MultiplexerSink::Start: call Start on mVideoSink, then on
mDecodedStream, then merge the two nsresults exactly as the C++ does:
equal results are returned as-is; if mVideoSink returned NS_OK the
decoded-stream result is returned; if mDecodedStream returned NS_OK the
video-sink result is returned; otherwise NS_ERROR_FAILURE. -/
def MultiplexerSink.Start (self : MultiplexerSink) (aStartTime : TimeUnit)
    (aInfo : MediaInfoVal) : nsresult × Trace :=
  let videoSinkRes := self.mVideoSink.start aStartTime aInfo
  let decodedStreamRes := self.mDecodedStream.start aStartTime aInfo
  let res :=
    if videoSinkRes = decodedStreamRes then videoSinkRes
    else if videoSinkRes = NS_OK then decodedStreamRes
    else if decodedStreamRes = NS_OK then videoSinkRes
    else NS_ERROR_FAILURE
  (res, [(.videoSink, .start aStartTime aInfo),
         (.decodedStream, .start aStartTime aInfo)])

/-- MultiplexerSink::Stop: both sinks, video sink first. -/
def MultiplexerSink.Stop (_self : MultiplexerSink) : Trace :=
  [(.videoSink, .stop), (.decodedStream, .stop)]

/-- MultiplexerSink::IsStarted: return mVideoSink->IsStarted(). -/
def MultiplexerSink.IsStarted (self : MultiplexerSink) : Bool × Trace :=
  (self.mVideoSink.isStarted, [(.videoSink, .isStarted)])

/-- MultiplexerSink::IsPlaying: return mVideoSink->IsPlaying(). -/
def MultiplexerSink.IsPlaying (self : MultiplexerSink) : Bool × Trace :=
  (self.mVideoSink.isPlaying, [(.videoSink, .isPlaying)])

/-- MultiplexerSink::AudioDevice: return mVideoSink->AudioDevice(). -/
def MultiplexerSink.AudioDevice (self : MultiplexerSink) :
    AudioDeviceRef × Trace :=
  (self.mVideoSink.audioDevice, [(.videoSink, .audioDevice)])

/-- MultiplexerSink::Shutdown: mVideoSink->Shutdown();
mDecodedStream->Shutdown(). Void in the source, so only a trace here. -/
def MultiplexerSink.Shutdown (_self : MultiplexerSink) : Trace :=
  [(.videoSink, .shutdown), (.decodedStream, .shutdown)]

/-- MultiplexerSink::SetSecondaryVideoContainer: both sinks, video sink
first. -/
def MultiplexerSink.SetSecondaryVideoContainer (_self : MultiplexerSink)
    (aSecondary : VideoFrameContainerRef) : Trace :=
  [(.videoSink, .setSecondaryVideoContainer aSecondary),
   (.decodedStream, .setSecondaryVideoContainer aSecondary)]

/-- MultiplexerSink::GetDebugInfo: mVideoSink->GetDebugInfo(aInfo) only
(the source carries a TODO about also querying the other sink). -/
def MultiplexerSink.GetDebugInfo (_self : MultiplexerSink)
    (aInfo : DebugInfoRef) : Trace :=
  [(.videoSink, .getDebugInfo aInfo)]

/-- The calls a trace issues on one owned sink, in order. -/
def callsTo (tag : SinkTag) (tr : Trace) : List SinkCall :=
  (tr.filter (fun e => decide (e.1 = tag))).map (fun e => e.2)

/-- How often a trace issues one specific call on one specific sink. -/
def countCallsTo (tag : SinkTag) (c : SinkCall) (tr : Trace) : Nat :=
  (tr.filter (fun e => decide (e = (tag, c)))).length

/-- Mutator-visible state of a conforming MediaSink: each Set* mutator of
the MediaSink contract takes effect as soon as the call returns, and the
matching accessor reports the last value set. -/
structure SinkState where
  streamName : String
  volume : CDouble
  playbackRate : CDouble
  preservesPitch : Bool
  playing : Bool
deriving DecidableEq, Repr

/-- How a conforming sink's mutator-visible state evolves on one call. -/
def applyCall (s : SinkState) : SinkCall → SinkState
| .setVolume v => { s with volume := v }
| .setStreamName n => { s with streamName := n }
| .setPlaybackRate r => { s with playbackRate := r }
| .setPreservesPitch b => { s with preservesPitch := b }
| .setPlaying b => { s with playing := b }
| _ => s

/-- Run a conforming sink's state through a list of calls. -/
def applyCalls (s : SinkState) (calls : List SinkCall) : SinkState :=
  calls.foldl applyCall s

/-- A test sink all of whose operations succeed; its Start returns NS_OK. -/
def sinkOk : MediaSink where
  onEnded := fun _ => 0
  getEndTime := fun _ => 0
  getPosition := fun _ => (0, none)
  hasUnplayedFrames := fun _ => false
  unplayedDuration := fun _ => 0
  playbackRate := 0
  start := fun _ _ => NS_OK
  isStarted := true
  isPlaying := true
  audioDevice := none

/-- A test sink whose Start fails with NS_ERROR_FAILURE. -/
def sinkStartFail : MediaSink where
  onEnded := fun _ => 0
  getEndTime := fun _ => 0
  getPosition := fun _ => (0, none)
  hasUnplayedFrames := fun _ => false
  unplayedDuration := fun _ => 0
  playbackRate := 0
  start := fun _ _ => NS_ERROR_FAILURE
  isStarted := false
  isPlaying := false
  audioDevice := none

/-- A test sink reporting playback rate 7. -/
def sinkRate7 : MediaSink :=
  { sinkOk with playbackRate := 7 }

/-- A blank conforming-sink state. -/
def st0 : SinkState where
  streamName := ""
  volume := 0
  playbackRate := 0
  preservesPitch := false
  playing := false

/-- Helper: the nsresult MultiplexerSink::Start returns, as a function of
the two delegates' Start results. -/
theorem Start_fst (m : MultiplexerSink) (t : TimeUnit) (i : MediaInfoVal) :
    (m.Start t i).1 =
      (if m.mVideoSink.start t i = m.mDecodedStream.start t i then
        m.mVideoSink.start t i
       else if m.mVideoSink.start t i = NS_OK then m.mDecodedStream.start t i
       else if m.mDecodedStream.start t i = NS_OK then m.mVideoSink.start t i
       else NS_ERROR_FAILURE) := rfl

/-- C2: a single MultiplexerSink::Start(startTime, info) invokes Start on
the primary (video) sink exactly once and on the secondary (decoded
stream) sink exactly once, the secondary's call coming after the
primary's; the delegate-call sequence is the same for every behaviour of
the two sinks, so a failing primary Start does not short-circuit the
secondary's. -/
theorem C2_start_invokes_both_once (m : MultiplexerSink) (t : TimeUnit)
    (i : MediaInfoVal) :
    countCallsTo .videoSink (.start t i) (m.Start t i).2 = 1 ∧
    countCallsTo .decodedStream (.start t i) (m.Start t i).2 = 1 ∧
    (m.Start t i).2 =
      [(.videoSink, .start t i), (.decodedStream, .start t i)] ∧
    ∀ n : MultiplexerSink, (n.Start t i).2 = (m.Start t i).2 := by
  refine ⟨?_, ?_, rfl, fun n => rfl⟩ <;>
    simp [countCallsTo, MultiplexerSink.Start]

/-- C9: Start passes the identical argument pair (startTime, info),
unmodified, to both owned sinks: each sink receives exactly one Start
call, carrying exactly the caller's arguments, and every event of the
trace carries those arguments. -/
theorem C9_start_args_unmodified (m : MultiplexerSink) (t : TimeUnit)
    (i : MediaInfoVal) :
    callsTo .videoSink (m.Start t i).2 = [.start t i] ∧
    callsTo .decodedStream (m.Start t i).2 = [.start t i] ∧
    ∀ e ∈ (m.Start t i).2, e.2 = SinkCall.start t i := by
  refine ⟨?_, ?_, ?_⟩ <;> simp [callsTo, MultiplexerSink.Start]

/-- C3: every value-producing query of the composite — OnEnded,
GetEndTime, GetPosition, HasUnplayedFrames, UnplayedDuration, IsStarted,
IsPlaying, AudioDevice, PlaybackRate — returns exactly the primary (video)
sink's value, issues no call on the secondary (decoded-stream) sink, and
is unchanged under any replacement of the secondary sink. -/
theorem C3_queries_primary_only (m : MultiplexerSink) (ty : TrackType)
    (ts : Option TimeStampAddr) :
    ((m.OnEnded ty).1 = m.mVideoSink.onEnded ty ∧
      callsTo .decodedStream (m.OnEnded ty).2 = []) ∧
    ((m.GetEndTime ty).1 = m.mVideoSink.getEndTime ty ∧
      callsTo .decodedStream (m.GetEndTime ty).2 = []) ∧
    ((m.GetPosition ts).1 = m.mVideoSink.getPosition ts ∧
      callsTo .decodedStream (m.GetPosition ts).2 = []) ∧
    ((m.HasUnplayedFrames ty).1 = m.mVideoSink.hasUnplayedFrames ty ∧
      callsTo .decodedStream (m.HasUnplayedFrames ty).2 = []) ∧
    ((m.UnplayedDuration ty).1 = m.mVideoSink.unplayedDuration ty ∧
      callsTo .decodedStream (m.UnplayedDuration ty).2 = []) ∧
    (m.IsStarted.1 = m.mVideoSink.isStarted ∧
      callsTo .decodedStream m.IsStarted.2 = []) ∧
    (m.IsPlaying.1 = m.mVideoSink.isPlaying ∧
      callsTo .decodedStream m.IsPlaying.2 = []) ∧
    (m.AudioDevice.1 = m.mVideoSink.audioDevice ∧
      callsTo .decodedStream m.AudioDevice.2 = []) ∧
    (m.PlaybackRate.1 = m.mVideoSink.playbackRate ∧
      callsTo .decodedStream m.PlaybackRate.2 = []) ∧
    ∀ d : MediaSink,
      (MultiplexerSink.mk m.mVideoSink d).OnEnded ty = m.OnEnded ty ∧
      (MultiplexerSink.mk m.mVideoSink d).GetEndTime ty = m.GetEndTime ty ∧
      (MultiplexerSink.mk m.mVideoSink d).GetPosition ts = m.GetPosition ts ∧
      (MultiplexerSink.mk m.mVideoSink d).HasUnplayedFrames ty =
        m.HasUnplayedFrames ty ∧
      (MultiplexerSink.mk m.mVideoSink d).UnplayedDuration ty =
        m.UnplayedDuration ty ∧
      (MultiplexerSink.mk m.mVideoSink d).IsStarted = m.IsStarted ∧
      (MultiplexerSink.mk m.mVideoSink d).IsPlaying = m.IsPlaying ∧
      (MultiplexerSink.mk m.mVideoSink d).AudioDevice = m.AudioDevice ∧
      (MultiplexerSink.mk m.mVideoSink d).PlaybackRate = m.PlaybackRate :=
  ⟨⟨rfl, rfl⟩, ⟨rfl, rfl⟩, ⟨rfl, rfl⟩, ⟨rfl, rfl⟩, ⟨rfl, rfl⟩, ⟨rfl, rfl⟩,
   ⟨rfl, rfl⟩, ⟨rfl, rfl⟩, ⟨rfl, rfl⟩,
   fun _ => ⟨rfl, rfl, rfl, rfl, rfl, rfl, rfl, rfl, rfl⟩⟩

/-- C4: each "both" mutator — SetStreamName, SetPlaybackRate, SetPlaying,
Redraw, Stop, Shutdown, SetSecondaryVideoContainer — issues the same-named
call with the caller's argument on the primary (video) sink first and then
on the secondary (decoded-stream) sink, unconditionally, returning no
value; in particular, after SetStreamName both conforming sinks' stream
names equal the argument. -/
theorem C4_both_mutators (m : MultiplexerSink) (nm : String) (r : CDouble)
    (b : Bool) (vi : VideoInfoVal) (sc : VideoFrameContainerRef) :
    m.SetStreamName nm =
      [(.videoSink, .setStreamName nm), (.decodedStream, .setStreamName nm)] ∧
    m.SetPlaybackRate r =
      [(.videoSink, .setPlaybackRate r),
       (.decodedStream, .setPlaybackRate r)] ∧
    m.SetPlaying b =
      [(.videoSink, .setPlaying b), (.decodedStream, .setPlaying b)] ∧
    m.Redraw vi = [(.videoSink, .redraw vi), (.decodedStream, .redraw vi)] ∧
    m.Stop = [(.videoSink, .stop), (.decodedStream, .stop)] ∧
    m.Shutdown = [(.videoSink, .shutdown), (.decodedStream, .shutdown)] ∧
    m.SetSecondaryVideoContainer sc =
      [(.videoSink, .setSecondaryVideoContainer sc),
       (.decodedStream, .setSecondaryVideoContainer sc)] ∧
    ∀ p s : SinkState,
      (applyCalls p (callsTo .videoSink (m.SetStreamName nm))).streamName =
        nm ∧
      (applyCalls s (callsTo .decodedStream (m.SetStreamName nm))).streamName =
        nm :=
  ⟨rfl, rfl, rfl, rfl, rfl, rfl, rfl, fun _ _ => ⟨rfl, rfl⟩⟩

/-- C5: Shutdown invokes Shutdown on each owned sink exactly once per
call, the primary (video) sink first; the delegate-call sequence is the
same for every behaviour of the two sinks, so the secondary's Shutdown
runs whatever the primary's Shutdown does, and the operation is void — it
yields nothing through which a failure could propagate. -/
theorem C5_shutdown_both_once (m : MultiplexerSink) :
    m.Shutdown = [(.videoSink, .shutdown), (.decodedStream, .shutdown)] ∧
    countCallsTo .videoSink .shutdown m.Shutdown = 1 ∧
    countCallsTo .decodedStream .shutdown m.Shutdown = 1 ∧
    ∀ n : MultiplexerSink, n.Shutdown = m.Shutdown :=
  ⟨rfl, rfl, rfl, fun _ => rfl⟩

/-- C6: SetVolume and SetPreservesPitch issue only the primary (video)
sink's same-named mutator with the caller's argument and no call on the
secondary (decoded-stream) sink; GetDebugInfo likewise forwards to the
primary only. -/
theorem C6_primary_only_mutators (m : MultiplexerSink) (v : CDouble)
    (b : Bool) (dbg : DebugInfoRef) :
    m.SetVolume v = [(.videoSink, .setVolume v)] ∧
    callsTo .decodedStream (m.SetVolume v) = [] ∧
    m.SetPreservesPitch b = [(.videoSink, .setPreservesPitch b)] ∧
    callsTo .decodedStream (m.SetPreservesPitch b) = [] ∧
    m.GetDebugInfo dbg = [(.videoSink, .getDebugInfo dbg)] ∧
    callsTo .decodedStream (m.GetDebugInfo dbg) = [] :=
  ⟨rfl, rfl, rfl, rfl, rfl, rfl⟩

/-- C10: GetPosition hands the caller's optional TimeStamp out-parameter
(null when the argument is omitted) to the primary (video) sink only: the
trace is exactly one primary GetPosition call carrying the pointer, the
secondary sink receives no call at all, the returned position and the
write through the pointer are exactly the primary's, and the result is
unchanged under any replacement of the secondary sink. -/
theorem C10_getposition_out_param (m : MultiplexerSink)
    (ts : Option TimeStampAddr) :
    (m.GetPosition ts).2 = [(.videoSink, .getPosition ts)] ∧
    callsTo .decodedStream (m.GetPosition ts).2 = [] ∧
    (m.GetPosition ts).1 = m.mVideoSink.getPosition ts ∧
    m.GetPositionNoArg = m.GetPosition none ∧
    ∀ d : MediaSink,
      (MultiplexerSink.mk m.mVideoSink d).GetPosition ts = m.GetPosition ts :=
  ⟨rfl, rfl, rfl, rfl, fun _ => rfl⟩

/-- C1 counterexample: with the primary sink's Start returning NS_OK and
the secondary's returning NS_ERROR_FAILURE, the composite Start returns
NS_ERROR_FAILURE — not NS_OK as the claim states. -/
theorem C1_counterexample :
    sinkOk.start 0 0 = NS_OK ∧
    sinkStartFail.start 0 0 = NS_ERROR_FAILURE ∧
    ((MultiplexerSink.mk sinkOk sinkStartFail).Start 0 0).1 =
      NS_ERROR_FAILURE ∧
    ((MultiplexerSink.mk sinkOk sinkStartFail).Start 0 0).1 ≠ NS_OK := by
  refine ⟨rfl, rfl, ?_, ?_⟩ <;> decide

/-- C1 (amended): MultiplexerSink::Start returns the common result when
the primary's and secondary's results agree; when exactly one of the two
is NS_OK it returns the other, failing, result; when both fail with
different codes it returns NS_ERROR_FAILURE. Hence the composite succeeds
exactly when both sinks succeed: primary=OK with secondary=ERROR yields
the secondary's error, and both ERROR yields an error. -/
theorem C1_start_merge_amended (m : MultiplexerSink) (t : TimeUnit)
    (i : MediaInfoVal) (p s : nsresult)
    (hp : m.mVideoSink.start t i = p)
    (hs : m.mDecodedStream.start t i = s) :
    ((m.Start t i).1 = NS_OK ↔ p = NS_OK ∧ s = NS_OK) ∧
    (p = s → (m.Start t i).1 = p) ∧
    (p = NS_OK → s ≠ NS_OK → (m.Start t i).1 = s) ∧
    (s = NS_OK → p ≠ NS_OK → (m.Start t i).1 = p) ∧
    (p ≠ NS_OK → s ≠ NS_OK → p ≠ s → (m.Start t i).1 = NS_ERROR_FAILURE) := by
  have hne : NS_ERROR_FAILURE ≠ NS_OK := by decide
  subst hp; subst hs
  rw [Start_fst]
  split_ifs with h1 h2 h3 <;> refine ⟨?_, ?_, ?_, ?_, ?_⟩ <;> simp_all

/-- C1 (amended) witness: primary NS_OK with secondary NS_ERROR_FAILURE
gives composite NS_ERROR_FAILURE. -/
theorem C1_start_merge_amended_witness :
    ((MultiplexerSink.mk sinkOk sinkStartFail).Start 0 0).1 =
      NS_ERROR_FAILURE :=
  (C1_start_merge_amended (MultiplexerSink.mk sinkOk sinkStartFail) 0 0
      NS_OK NS_ERROR_FAILURE rfl rfl).2.2.1 rfl (by decide)

/-- C7: SetPlaybackRate(r) delivers r to both owned sinks, and when the
primary sink conforms to the MediaSink contract — its PlaybackRate()
reports the last rate set — a subsequent composite PlaybackRate() returns
r as reported by the primary. -/
theorem C7_playback_rate_roundtrip (m : MultiplexerSink) (r : CDouble)
    (p : SinkState) :
    ((.videoSink, .setPlaybackRate r) ∈ m.SetPlaybackRate r ∧
     (.decodedStream, .setPlaybackRate r) ∈ m.SetPlaybackRate r) ∧
    (applyCalls p (callsTo .videoSink (m.SetPlaybackRate r))).playbackRate =
      r ∧
    ∀ n : MultiplexerSink,
      n.mVideoSink.playbackRate =
        (applyCalls p (callsTo .videoSink (m.SetPlaybackRate r))).playbackRate →
      n.PlaybackRate.1 = r := by
  refine ⟨⟨?_, ?_⟩, rfl, fun n h => h⟩ <;>
    simp [MultiplexerSink.SetPlaybackRate]

/-- C7 witness: after SetPlaybackRate 7, a conforming primary reports 7
and the composite PlaybackRate returns 7. -/
theorem C7_playback_rate_roundtrip_witness :
    (MultiplexerSink.mk sinkRate7 sinkOk).PlaybackRate.1 = 7 :=
  (C7_playback_rate_roundtrip (MultiplexerSink.mk sinkOk sinkOk) 7 st0).2.2
    (MultiplexerSink.mk sinkRate7 sinkOk) rfl

/-- C8: the composite's only state is its two sink references (it equals
the composite rebuilt from them); every operation issues the identical
delegate-call sequence for any two composites given the same arguments;
and whenever the owned sinks return equal results for an operation's
delegate calls, the composite returns equal results. -/
theorem C8_stateless_deterministic (m₁ m₂ : MultiplexerSink)
    (ty : TrackType) (ts : Option TimeStampAddr) (t : TimeUnit)
    (i : MediaInfoVal) (v r : CDouble) (nm : String) (b pl : Bool)
    (vi : VideoInfoVal) (sc : VideoFrameContainerRef) (dbg : DebugInfoRef) :
    (m₁ = MultiplexerSink.mk m₁.mVideoSink m₁.mDecodedStream) ∧
    ((m₁.OnEnded ty).2 = (m₂.OnEnded ty).2 ∧
     (m₁.GetEndTime ty).2 = (m₂.GetEndTime ty).2 ∧
     (m₁.GetPosition ts).2 = (m₂.GetPosition ts).2 ∧
     (m₁.HasUnplayedFrames ty).2 = (m₂.HasUnplayedFrames ty).2 ∧
     (m₁.UnplayedDuration ty).2 = (m₂.UnplayedDuration ty).2 ∧
     m₁.IsStarted.2 = m₂.IsStarted.2 ∧
     m₁.IsPlaying.2 = m₂.IsPlaying.2 ∧
     m₁.AudioDevice.2 = m₂.AudioDevice.2 ∧
     m₁.PlaybackRate.2 = m₂.PlaybackRate.2 ∧
     (m₁.Start t i).2 = (m₂.Start t i).2 ∧
     m₁.SetVolume v = m₂.SetVolume v ∧
     m₁.SetStreamName nm = m₂.SetStreamName nm ∧
     m₁.SetPlaybackRate r = m₂.SetPlaybackRate r ∧
     m₁.SetPreservesPitch b = m₂.SetPreservesPitch b ∧
     m₁.SetPlaying pl = m₂.SetPlaying pl ∧
     m₁.Redraw vi = m₂.Redraw vi ∧
     m₁.Stop = m₂.Stop ∧
     m₁.Shutdown = m₂.Shutdown ∧
     m₁.SetSecondaryVideoContainer sc = m₂.SetSecondaryVideoContainer sc ∧
     m₁.GetDebugInfo dbg = m₂.GetDebugInfo dbg) ∧
    ((m₁.mVideoSink.start t i = m₂.mVideoSink.start t i →
      m₁.mDecodedStream.start t i = m₂.mDecodedStream.start t i →
        (m₁.Start t i).1 = (m₂.Start t i).1) ∧
     (m₁.mVideoSink.onEnded ty = m₂.mVideoSink.onEnded ty →
        (m₁.OnEnded ty).1 = (m₂.OnEnded ty).1) ∧
     (m₁.mVideoSink.getEndTime ty = m₂.mVideoSink.getEndTime ty →
        (m₁.GetEndTime ty).1 = (m₂.GetEndTime ty).1) ∧
     (m₁.mVideoSink.getPosition ts = m₂.mVideoSink.getPosition ts →
        (m₁.GetPosition ts).1 = (m₂.GetPosition ts).1) ∧
     (m₁.mVideoSink.hasUnplayedFrames ty = m₂.mVideoSink.hasUnplayedFrames ty →
        (m₁.HasUnplayedFrames ty).1 = (m₂.HasUnplayedFrames ty).1) ∧
     (m₁.mVideoSink.unplayedDuration ty = m₂.mVideoSink.unplayedDuration ty →
        (m₁.UnplayedDuration ty).1 = (m₂.UnplayedDuration ty).1) ∧
     (m₁.mVideoSink.isStarted = m₂.mVideoSink.isStarted →
        m₁.IsStarted.1 = m₂.IsStarted.1) ∧
     (m₁.mVideoSink.isPlaying = m₂.mVideoSink.isPlaying →
        m₁.IsPlaying.1 = m₂.IsPlaying.1) ∧
     (m₁.mVideoSink.audioDevice = m₂.mVideoSink.audioDevice →
        m₁.AudioDevice.1 = m₂.AudioDevice.1) ∧
     (m₁.mVideoSink.playbackRate = m₂.mVideoSink.playbackRate →
        m₁.PlaybackRate.1 = m₂.PlaybackRate.1)) := by
  refine ⟨rfl,
    ⟨rfl, rfl, rfl, rfl, rfl, rfl, rfl, rfl, rfl, rfl, rfl, rfl, rfl, rfl,
     rfl, rfl, rfl, rfl, rfl, rfl⟩,
    ⟨?_, fun h => h, fun h => h, fun h => h, fun h => h, fun h => h,
     fun h => h, fun h => h, fun h => h, fun h => h⟩⟩
  intro h1 h2
  rw [Start_fst, Start_fst, h1, h2]

/-- C8 witness: two composites whose sinks agree on the Start results
produce equal Start results. -/
theorem C8_stateless_deterministic_witness :
    ((MultiplexerSink.mk sinkOk sinkOk).Start 0 0).1 =
      ((MultiplexerSink.mk sinkRate7 sinkOk).Start 0 0).1 :=
  (C8_stateless_deterministic (MultiplexerSink.mk sinkOk sinkOk)
      (MultiplexerSink.mk sinkRate7 sinkOk) .AudioTrack none 0 0 0 0 "" false
      false 0 none 0).2.2.1 rfl rfl

end Mozilla
